import Mathlib

/-!
Verification development for the mission progression engine of the
Forgotten_Ruin_MUD server (backend/game/models/mission.py,
backend/game/models/player_mission.py and the event-trigger API view).

Modelling conventions (shallow embedding):
* Timestamps are natural numbers counting seconds; `timezone.now()`
  becomes an explicit `now : Nat` argument.
* Django model rows become Lean structures.  JSON dictionaries whose
  fields the engine reads through `.get` with defaults are materialised
  as structure fields with those defaults already applied.
* `objectives_completed` is a JSON dict mapping objective keys to
  booleans, but the engine only ever writes the value `True` and reads
  it with `.get(key, False)`; we therefore model it as the list of keys
  that are mapped to `True` (in insertion order).
* Each `save()` / `delete()` / `create()` commits immediately
  (`ATOMIC_REQUESTS: False` in server/test_settings.py).  When a method
  raises, in-memory mutations that were not yet saved are discarded; the
  `World` value returned by an operation is the persisted state.
* Attribute accesses on related rows are translated against the model
  definitions in the repository.  Three attributes used by the engine
  exist nowhere in the repository and therefore raise `AttributeError`
  at run time; they are modelled as exceptional results:
    - `self.player.gain_xp(...)` in `_award_rewards` (Player defines
      `gain_experience`, player.py line 239, used by quest.py line 299);
    - `self.mission.get_act_title(...)` in `start_act` and
      `get_progress_summary` (Mission has `act1_title` fields but no
      such method);
    - `self.player.squad.name` in the squad snapshot of `accept`
      (Squad defines `squad_name`, squad.py line 32).
* `player.squad` is Django's reverse one-to-one accessor (Squad has
  `player = OneToOneField(..., related_name='squad')`): when the player
  has no Squad row it raises RelatedObjectDoesNotExist instead of
  evaluating falsy.  The repository itself guards this access with
  hasattr (character.py line 19, create_squad.py line 48), but
  mission.py line 206 and player_mission.py line 116 do not, so the
  squadless paths of can_player_start and accept raise, and the
  source's `elif required_squad_size > 1` branch is dead code.
* External rows consulted by the engine (other PlayerMission rows,
  prerequisite completion, mission name lookup, item templates) are
  modelled as read-only environment fields of `World`.
-/

namespace FRMud

/-- STATUS_CHOICES of PlayerMission (player_mission.py lines 15-22). -/
inductive Status where
  | available
  | active
  | in_progress
  | completed
  | failed
  | abandoned
deriving DecidableEq, Repr

/-- Display names from STATUS_CHOICES (used by get_status_display). -/
def statusDisplay : Status → String
  | .available => "Available"
  | .active => "Active"
  | .in_progress => "In Progress"
  | .completed => "Completed"
  | .failed => "Failed"
  | .abandoned => "Abandoned"

/-- success_level choices (player_mission.py lines 59-68): the source
values are 'full', 'partial', 'failure'; the middle one is renamed
`partialSuccess` here because its source name is a Lean keyword. -/
inductive SuccessLevel where
  | full
  | partialSuccess
  | failure
deriving DecidableEq, Repr

/-- One entry of actN_objectives; `required` carries the
`obj.get('required', True)` default already applied. -/
structure Objective where
  key : String
  required : Bool
deriving DecidableEq, Repr

/-- One entry of Mission.required_items with the `.get` defaults
(`quantity` default 1, `consumed` default False) applied. -/
structure ItemReq where
  item_key : String
  quantity : Nat
  consumed : Bool
deriving DecidableEq, Repr

/-- One entry of Mission.reward_items (`quantity` default 1). -/
structure RewardItem where
  item_key : String
  quantity : Nat
deriving DecidableEq, Repr

/-- The fields of game.Mission that the progression engine reads
(mission.py).  `time_limit` is nullable; `has_reward_reputation` and
`has_failure_consequences` model the truthiness of the corresponding
JSON dicts. -/
structure Mission where
  key : String
  name : String
  is_public : Bool
  required_level : Nat
  required_squad_size : Nat
  act1_title : String
  act2_title : String
  act3_title : String
  act1_objectives : List Objective
  act2_objectives : List Objective
  act3_objectives : List Objective
  reward_xp : Nat
  reward_currency : Nat
  reward_items : List RewardItem
  has_reward_reputation : Bool
  has_failure_consequences : Bool
  time_limit : Option Nat
  can_fail : Bool
  can_abandon : Bool
  is_repeatable : Bool
  cooldown_hours : Nat
  required_missions_completed : List String
  required_items : List ItemReq
deriving Repr

/-- Return total number of objectives across all acts
(Mission.get_total_objectives, mission.py lines 189-195). -/
def get_total_objectives (m : Mission) : Nat :=
  m.act1_objectives.length + m.act2_objectives.length + m.act3_objectives.length

/-- A squad member as read by the eligibility check (only `health` is
ever successfully accessed by the engine). -/
structure SquadMemberS where
  health : Int
deriving DecidableEq, Repr

/-- A squad: its members (related_name='members').  The `squad_name`
field exists on the row but the engine's snapshot code asks for `name`
and raises before reading anything else. -/
structure Squad where
  squad_name : String
  members : List SquadMemberS
deriving DecidableEq, Repr

/-- One entry of choices_made (make_choice, player_mission.py 349-359). -/
structure ChoiceRecord where
  event_key : String
  choice : String
  outcome : String
  timestamp : Nat
deriving DecidableEq, Repr

/-- The mutable per-instance state of a PlayerMission row. -/
structure PMState where
  status : Status
  current_act : Nat
  accepted_at : Option Nat
  started_at : Option Nat
  completed_at : Option Nat
  time_limit_expires : Option Nat
  objectives_completed : List String
  events_triggered : List String
  choices_made : List ChoiceRecord
  success_level : Option SuccessLevel
  completion_notes : String
  rewards_claimed : Bool
  xp_awarded : Nat
  currency_awarded : Nat
  items_awarded : List String
deriving DecidableEq, Repr

/-- A freshly created instance row (model field defaults). -/
def initialPM : PMState :=
  { status := .available
    current_act := 0
    accepted_at := none
    started_at := none
    completed_at := none
    time_limit_expires := none
    objectives_completed := []
    events_triggered := []
    choices_made := []
    success_level := none
    completion_notes := ""
    rewards_claimed := false
    xp_awarded := 0
    currency_awarded := 0
    items_awarded := [] }

/-- The persisted world an operation observes and produces: the
instance row plus the player row and the read-only environment the
engine consults through the ORM. -/
structure World where
  pm : PMState
  player_level : Nat
  player_experience : Nat
  player_currency : Nat
  /-- The player's Item rows, as a multiset of item keys. -/
  player_items : List String
  squad : Option Squad
  /-- Whether another PlayerMission row for (player, mission) has
  status active or in_progress. -/
  prior_active : Bool
  /-- completed_at stamps of the (player, mission) rows with status
  'completed'. -/
  prior_completed_at : List Nat
  /-- Whether a completed PlayerMission row exists for (player, given
  mission key) — the prerequisite lookup. -/
  prereq_completed : String → Bool
  /-- Mission.objects.get(key).name, none when DoesNotExist. -/
  mission_names : String → Option String
  /-- Item.objects.filter(key=k).first(): the template's name, if any
  row with that key exists anywhere. -/
  item_templates : String → Option String

/-- order_by('-completed_at').first() over the completed rows. -/
def lastCompletion : List Nat → Option Nat
  | [] => none
  | t :: ts => some (ts.foldl max t)

/-- Requirement loop of the required-items check (mission.py 262-274):
first entry whose inventory count falls short, with its reason. -/
def checkRequiredItemsLoop (inv : List String) : List ItemReq → Option String
  | [] => none
  | r :: rest =>
      if inv.count r.item_key < r.quantity then
        some ("Requires " ++ toString r.quantity ++ "x " ++ r.item_key)
      else checkRequiredItemsLoop inv rest

/-- Prerequisite loop (mission.py 246-259): first prerequisite key with
no completed instance, with the reason built from the mission lookup. -/
def checkPrereqsLoop (w : World) : List String → Option String
  | [] => none
  | k :: rest =>
      if w.prereq_completed k then checkPrereqsLoop w rest
      else
        match w.mission_names k with
        | some nm => some ("Requires completion of: " ++ nm)
        | none => some ("Requires prerequisite mission: " ++ k)

/-- Required-items stage of can_player_start (mission.py 261-276). -/
def cps_items (m : Mission) (w : World) : Bool × String :=
  if m.required_items = [] then (true, "Requirements met")
  else
    match checkRequiredItemsLoop w.player_items m.required_items with
    | some reason => (false, reason)
    | none => (true, "Requirements met")

/-- Prerequisite-mission stage of can_player_start (mission.py 246-259). -/
def cps_prereqs (m : Mission) (w : World) : Bool × String :=
  if m.required_missions_completed = [] then cps_items m w
  else
    match checkPrereqsLoop w m.required_missions_completed with
    | some reason => (false, reason)
    | none => cps_items m w

/-- Completed/cooldown stage of can_player_start (mission.py 222-244). -/
def cps_cooldown (m : Mission) (w : World) (now : Nat) : Bool × String :=
  if ¬ m.is_repeatable then
    if w.prior_completed_at ≠ [] then (false, "Mission already completed")
    else cps_prereqs m w
  else
    match lastCompletion w.prior_completed_at with
    | some t =>
        if m.cooldown_hours > 0 then
          if now < t + m.cooldown_hours * 3600 then
            (false, "On cooldown for " ++
              toString ((t + m.cooldown_hours * 3600 - now) / 3600) ++ " more hours")
          else cps_prereqs m w
        else cps_prereqs m w
    | none => cps_prereqs m w

/-- Already-active stage of can_player_start (mission.py 213-220). -/
def cps_active (m : Mission) (w : World) (now : Nat) : Bool × String :=
  if w.prior_active then (false, "Mission already in progress")
  else cps_cooldown m w now

/-- Squad-size stage of can_player_start (mission.py 205-211).  The
guard `if player.squad:` evaluates the reverse one-to-one accessor,
which raises RelatedObjectDoesNotExist for a squadless player, so the
`elif required_squad_size > 1` branch of the source is unreachable and
the stage is the first that can raise. -/
def cps_squad (m : Mission) (w : World) (now : Nat) : Except String (Bool × String) :=
  match w.squad with
  | some sq =>
      if (sq.members.filter (fun mem => mem.health > 0)).length < m.required_squad_size then
        Except.ok (false, "Requires " ++ toString m.required_squad_size ++ " squad members")
      else Except.ok (cps_active m w now)
  | none => Except.error "RelatedObjectDoesNotExist: Player has no squad"

/-- Check if player meets requirements to start this mission
(Mission.can_player_start, mission.py lines 197-276), translated with
one stage per early-return block.  The level check precedes the squad
access, so it reports normally for everyone; past it, a squadless
player makes the method raise rather than return a (bool, reason)
pair. -/
def can_player_start (m : Mission) (w : World) (now : Nat) :
    Except String (Bool × String) :=
  if w.player_level < m.required_level then
    Except.ok (false, "Requires level " ++ toString m.required_level)
  else cps_squad m w now

/-- Pass flag of eligibility check 2 (squad size), in the spec's form:
with a squad, alive members must reach required_squad_size; without
one, required_squad_size must not exceed 1. -/
def squadSizeOk (m : Mission) (w : World) : Bool :=
  match w.squad with
  | some sq =>
      decide (¬ ((sq.members.filter (fun mem => mem.health > 0)).length <
        m.required_squad_size))
  | none => decide (¬ (m.required_squad_size > 1))

/-- Failure reason of the cooldown check (spec check 5), none when it
passes; it only applies to repeatable missions with a prior completion
and a positive cooldown, mirroring the code's condition. -/
def cooldownFailReason (m : Mission) (w : World) (now : Nat) : Option String :=
  if m.is_repeatable then
    match lastCompletion w.prior_completed_at with
    | some t =>
        if m.cooldown_hours > 0 then
          if now < t + m.cooldown_hours * 3600 then
            some ("On cooldown for " ++
              toString ((t + m.cooldown_hours * 3600 - now) / 3600) ++ " more hours")
          else none
        else none
    | none => none
  else none

/-- Modelled from the spec: the seven eligibility checks in the fixed
order of section 4.1 (level, squad size, already active, already
completed, cooldown, prerequisite missions, required items), each as a
pass flag with its failure reason.  Used to compare the spec's
ordered-checklist reading against can_player_start. -/
def eligChecks (m : Mission) (w : World) (now : Nat) : List (Bool × String) :=
  [ (decide (m.required_level ≤ w.player_level),
      "Requires level " ++ toString m.required_level),
    (squadSizeOk m w,
      "Requires " ++ toString m.required_squad_size ++ " squad members"),
    (! w.prior_active, "Mission already in progress"),
    (m.is_repeatable || decide (w.prior_completed_at = []),
      "Mission already completed"),
    ((cooldownFailReason m w now).isNone, (cooldownFailReason m w now).getD ""),
    ((checkPrereqsLoop w m.required_missions_completed).isNone,
      (checkPrereqsLoop w m.required_missions_completed).getD ""),
    ((checkRequiredItemsLoop w.player_items m.required_items).isNone,
      (checkRequiredItemsLoop w.player_items m.required_items).getD "") ]

/-- Modelled from the spec: evaluate an ordered checklist,
short-circuiting on the first failing check and reporting its reason. -/
def firstFailure : List (Bool × String) → Bool × String
  | [] => (true, "Requirements met")
  | (true, _) :: rest => firstFailure rest
  | (false, reason) :: _ => (false, reason)

/-- Result of calling a PlayerMission method: either the method's
normal `(bool, message)` return, or an uncaught Python exception. -/
inductive PyRes where
  | ok : Bool → String → PyRes
  | exn : String → PyRes
deriving DecidableEq, Repr

/-- Begin a specific act (PlayerMission.start_act, lines 144-156).
The mutations are saved, but the success message then formats
`self.mission.get_act_title(act_number)`, a method that exists nowhere
in the repository, so the call ends in AttributeError after the save. -/
def start_act (now : Nat) (w : World) (act_number : Nat) : World × PyRes :=
  if w.pm.current_act ≥ act_number then
    (w, .ok false "Act already started or completed")
  else
    let pm := { w.pm with current_act := act_number }
    let pm :=
      if act_number = 1 ∧ w.pm.started_at = none then
        { pm with started_at := some now, status := .in_progress }
      else pm
    ({ w with pm := pm }, .exn "AttributeError: Mission has no attribute get_act_title")

/-- One unit loop of the item rewards (player_mission.py 239-258):
`quantity` fresh copies of the item are created for the player when a
template row with that key exists; their names are recorded. -/
def awardOneItem (tmpl : String → Option String) (r : RewardItem) :
    List String × List String :=
  match tmpl r.item_key with
  | some nm => (List.replicate r.quantity r.item_key, List.replicate r.quantity nm)
  | none => ([], [])

/-- Item reward loop over reward_items, returning (created item keys,
awarded item names). -/
def awardItems (tmpl : String → Option String) (rs : List RewardItem) :
    List String × List String :=
  rs.foldl
    (fun acc r =>
      let p := awardOneItem tmpl r
      (acc.1 ++ p.1, acc.2 ++ p.2))
    ([], [])

/-- Award mission rewards to player (PlayerMission._award_rewards,
lines 220-268), acting on the in-memory instance state `pm` while `w`
holds the last persisted state.  When reward_xp > 0 the very first
statement calls `self.player.gain_xp(...)`; Player defines
`gain_experience`, not `gain_xp`, so the method raises before granting
or saving anything.  Otherwise currency, items and the bookkeeping
fields are granted and the final `save()` commits `pm`. -/
def award_rewards (m : Mission) (w : World) (pm : PMState) : World × Option String :=
  if m.reward_xp > 0 then
    (w, some "AttributeError: Player has no attribute gain_xp")
  else
    let currency := if m.reward_currency > 0 then w.player_currency + m.reward_currency else w.player_currency
    let pm := if m.reward_currency > 0 then { pm with currency_awarded := m.reward_currency } else pm
    let awarded := awardItems w.item_templates m.reward_items
    let pm := { pm with items_awarded := awarded.2 }
    let pm := { pm with rewards_claimed := true }
    ({ w with pm := pm, player_currency := currency,
              player_items := w.player_items ++ awarded.1 }, none)

/-- Complete the mission (PlayerMission._complete_mission, lines
207-218).  Completion fields are set in memory; rewards are awarded
only for public missions whose rewards are unclaimed; the trailing
`save()` then commits — unless the award raised, in which case nothing
of this method was saved. -/
def complete_mission (m : Mission) (now : Nat) (w : World) (lvl : SuccessLevel) :
    World × Option String :=
  let pm := { w.pm with
    status := .completed
    completed_at := some now
    success_level := some lvl
    current_act := 4 }
  if m.is_public ∧ ¬ w.pm.rewards_claimed then
    award_rewards m w pm
  else
    ({ w with pm := pm }, none)

/-- Check if current act is complete and advance if so
(PlayerMission._check_act_completion, lines 176-205).  Returns the
persisted world and an exception message when a nested call raised. -/
def check_act_completion (m : Mission) (now : Nat) (w : World) : World × Option String :=
  if w.pm.current_act = 0 then
    match start_act now w 1 with
    | (w1, .exn e) => (w1, some e)
    | (w1, .ok _ _) => (w1, none)
  else
    let act_objectives :=
      if w.pm.current_act = 1 then m.act1_objectives
      else if w.pm.current_act = 2 then m.act2_objectives
      else if w.pm.current_act = 3 then m.act3_objectives
      else []
    let required_objectives := act_objectives.filter (fun obj => obj.required)
    let all_complete :=
      required_objectives.all (fun obj => w.pm.objectives_completed.contains obj.key)
    if all_complete then
      if w.pm.current_act < 3 then
        match start_act now w (w.pm.current_act + 1) with
        | (w1, .exn e) => (w1, some e)
        | (w1, .ok _ _) => (w1, none)
      else
        complete_mission m now w .full
    else (w, none)

/-- Mark an objective as completed (PlayerMission.complete_objective,
lines 158-174).  The objective is recorded and saved before the
act-completion check runs. -/
def complete_objective (m : Mission) (now : Nat) (w : World) (objective_key : String) :
    World × PyRes :=
  if ¬ (w.pm.status = .active ∨ w.pm.status = .in_progress) then
    (w, .ok false "Mission is not active")
  else if w.pm.objectives_completed.contains objective_key then
    (w, .ok false "Objective already completed")
  else
    let w := { w with pm :=
      { w.pm with objectives_completed := w.pm.objectives_completed ++ [objective_key] } }
    match check_act_completion m now w with
    | (w1, none) => (w1, .ok true "Objective completed")
    | (w1, some e) => (w1, .exn e)

/-- Trigger a mission event (PlayerMission.trigger_event, lines
340-347).  There is no status guard and no repeatability check here:
the only test is membership in events_triggered. -/
def trigger_event (w : World) (event_key : String) : World × PyRes :=
  if w.pm.events_triggered.contains event_key then
    (w, .ok false "Event already triggered")
  else
    ({ w with pm :=
        { w.pm with events_triggered := w.pm.events_triggered ++ [event_key] } },
     .ok true "Event triggered")

/-- Record a player choice (PlayerMission.make_choice, lines 349-359).
No guard of any kind: the record is always appended and saved. -/
def make_choice (now : Nat) (w : World)
    (event_key choice_text outcome_key : String) : World × PyRes :=
  ({ w with pm :=
      { w.pm with choices_made := w.pm.choices_made ++
        [{ event_key := event_key
           choice := choice_text
           outcome := outcome_key
           timestamp := now }] } },
   .ok true "Choice recorded")

/-- Fail the mission (PlayerMission.fail_mission, lines 270-285).  The
public-mission consequence hook `_apply_failure_consequences` is a
`pass` statement, so the guarded call is a no-op. -/
def fail_mission (m : Mission) (now : Nat) (w : World) (reason : String) :
    World × PyRes :=
  if ¬ m.can_fail then (w, .ok false "This mission cannot be failed")
  else
    ({ w with pm := { w.pm with
        status := .failed
        completed_at := some now
        success_level := some .failure
        completion_notes := reason } },
     .ok true ("Mission failed: " ++ reason))

/-- Abandon the mission (PlayerMission.abandon_mission, lines 293-301). -/
def abandon_mission (m : Mission) (now : Nat) (w : World) : World × PyRes :=
  if ¬ m.can_abandon then (w, .ok false "This mission cannot be abandoned")
  else
    ({ w with pm := { w.pm with status := .abandoned, completed_at := some now } },
     .ok true "Mission abandoned")

/-- Check if mission has exceeded time limit
(PlayerMission.check_time_limit, lines 303-308).  Note there is no
status guard: only expiry is tested, and the result of fail_mission is
discarded. -/
def check_time_limit (m : Mission) (now : Nat) (w : World) : World × Bool :=
  match w.pm.time_limit_expires with
  | some t => if now > t then ((fail_mission m now w "Time limit exceeded").1, true) else (w, false)
  | none => (w, false)

/-- Remove up to `n` of the player's items with key `k` — the
`Item.objects.filter(player, key)[:quantity]` slice followed by
per-item delete (player_mission.py 137-139). -/
def removeN : List String → String → Nat → List String
  | l, _, 0 => l
  | [], _, _ => []
  | x :: xs, k, Nat.succ n =>
      if x = k then removeN xs k n else x :: removeN xs k (Nat.succ n)

/-- Consumption loop of accept (player_mission.py 129-139): each
required item flagged consumed has up to its quantity removed.
Translated for completeness: under the raising squad accessor the
loop is unreachable (see accept), so it never actually runs. -/
def consumeAll (reqs : List ItemReq) (inv : List String) : List String :=
  reqs.foldl
    (fun inv' r => if r.consumed then removeN inv' r.item_key r.quantity else inv')
    inv

/-- Player accepts the mission (PlayerMission.accept, lines 97-142).
Eligibility is re-validated first and its exception (squadless player)
propagates.  When it passes, lines 107-113 mutate the row in memory
only (status, accepted_at, current_act, the truthiness-guarded time
limit); the snapshot block at line 116 then raises in both branches —
`self.player.squad.name` for a squadded player (Squad defines
`squad_name`, not `name`), and the bare `self.player.squad` access for
a squadless one — before the consumption loop (129-139) and the single
`save()` at line 141.  Nothing accept does is ever persisted: it never
consumes items and never succeeds. -/
def accept (m : Mission) (now : Nat) (w : World) : World × PyRes :=
  if w.pm.status ≠ .available then (w, .ok false "Mission already accepted")
  else
    match can_player_start m w now with
    | .error e => (w, .exn e)
    | .ok (false, message) => (w, .ok false message)
    | .ok (true, _) =>
        match w.squad with
        | some _ => (w, .exn "AttributeError: Squad has no attribute name")
        | none => (w, .exn "RelatedObjectDoesNotExist: Player has no squad")

/-- Get formatted time remaining (PlayerMission._get_time_remaining,
lines 327-338). -/
def get_time_remaining (now : Nat) (w : World) : Option String :=
  match w.pm.time_limit_expires with
  | none => none
  | some t =>
      if t ≤ now then some "EXPIRED"
      else
        some (toString ((t - now) / 3600) ++ "h " ++
              toString ((t - now) % 3600 / 60) ++ "m")

/-- The dict returned by get_progress_summary. -/
structure ProgressSummary where
  mission_name : String
  status_display : String
  current_act : Nat
  act_name : String
  objectives_completed : Nat
  total_objectives : Nat
  progress_percent : Nat
  time_remaining : Option String
  success_level : Option SuccessLevel
deriving DecidableEq, Repr

/-- Get a summary of mission progress (PlayerMission.get_progress_summary,
lines 310-325).  The act_name value calls
`self.mission.get_act_title(self.current_act)` whenever current_act > 0;
that method exists nowhere in the repository, so the summary raises
AttributeError for every instance past the hook.  The percentage uses
the guarded `int(completed / total * 100) if total > 0 else 0`. -/
def get_progress_summary (m : Mission) (now : Nat) (w : World) :
    Except String ProgressSummary :=
  let total_objectives := get_total_objectives m
  let completed_count := w.pm.objectives_completed.length
  if w.pm.current_act > 0 then
    Except.error "AttributeError: Mission has no attribute get_act_title"
  else
    Except.ok
      { mission_name := m.name
        status_display := statusDisplay w.pm.status
        current_act := w.pm.current_act
        act_name := "Hook"
        objectives_completed := completed_count
        total_objectives := total_objectives
        progress_percent :=
          if total_objectives > 0 then completed_count * 100 / total_objectives else 0
        time_remaining := get_time_remaining now w
        success_level := w.pm.success_level }

/-- The MissionEvent fields read by the trigger view. -/
structure MissionEventDef where
  key : String
  name : String
  event_type : String
  description : String
  is_repeatable : Bool
deriving DecidableEq, Repr

/-- MissionEventTriggerView.post (api/v1/mission_views.py lines
376-415), given that the player, instance and event resolve.  The view
first applies its own repeatability bypass check, then delegates to
PlayerMission.trigger_event and maps its failure to an error
response. -/
def missionEventTriggerView (ev : MissionEventDef) (w : World) :
    World × Bool × String :=
  if ¬ ev.is_repeatable ∧ w.pm.events_triggered.contains ev.key then
    (w, false, "Event already triggered")
  else
    match trigger_event w ev.key with
    | (w1, .ok true message) => (w1, true, message)
    | (w1, .ok false message) => (w1, false, message)
    | (w1, .exn e) => (w1, false, e)

/-- One public operation of the instance state machine, with the
argument values the caller passes. -/
inductive Op where
  | acceptM : Op
  | completeObjectiveM : String → Op
  | triggerEventM : String → Op
  | makeChoiceM : String → String → String → Op
  | abandonM : Op
  | failM : String → Op
  | checkTimeLimitM : Op
deriving DecidableEq, Repr

/-- Persisted world after one public operation invoked at time `now`. -/
def step (m : Mission) (w : World) : Nat × Op → World
  | (now, .acceptM) => (accept m now w).1
  | (now, .completeObjectiveM k) => (complete_objective m now w k).1
  | (_, .triggerEventM k) => (trigger_event w k).1
  | (now, .makeChoiceM e c o) => (make_choice now w e c o).1
  | (now, .abandonM) => (abandon_mission m now w).1
  | (now, .failM r) => (fail_mission m now w r).1
  | (now, .checkTimeLimitM) => (check_time_limit m now w).1

/-- Run a sequence of public operations. -/
def run (m : Mission) (w : World) (steps : List (Nat × Op)) : World :=
  steps.foldl (step m) w

/-- Structural facts maintained by every public operation: an
available instance is still at the hook, a live instance has not
passed act 3, and no instance ever passes act 4. -/
def WorldInv (w : World) : Prop :=
  (w.pm.status = .available → w.pm.current_act = 0) ∧
  ((w.pm.status = .active ∨ w.pm.status = .in_progress) → w.pm.current_act ≤ 3) ∧
  w.pm.current_act ≤ 4

instance (w : World) : Decidable (WorldInv w) := by
  unfold WorldInv; infer_instance

/-- Terminal statuses of the instance state machine. -/
def Terminal (s : Status) : Prop :=
  s = .completed ∨ s = .failed ∨ s = .abandoned

instance (s : Status) : Decidable (Terminal s) := by
  unfold Terminal; infer_instance


/-- Character-list test that `pre` is a leading segment of the second
list (helper for the substring check used to state "reason contains"). -/
def listLeads : List Char → List Char → Bool
  | [], _ => true
  | _ :: _, [] => false
  | a :: as, b :: bs => a = b && listLeads as bs

/-- Character-list substring test. -/
def listHasSub (needle : List Char) : List Char → Bool
  | [] => listLeads needle []
  | b :: bs => listLeads needle (b :: bs) || listHasSub needle bs

/-- String substring test: does `hay` contain `needle`? -/
def strHasSub (needle hay : String) : Bool :=
  listHasSub needle.data hay.data

/-! Concrete fixtures used by the counterexample and witness theorems. -/

/-- A minimal mission definition; fixtures adjust individual fields. -/
def mkMission : Mission :=
  { key := "m"
    name := "M"
    is_public := true
    required_level := 1
    required_squad_size := 1
    act1_title := "Setup"
    act2_title := "Confrontation"
    act3_title := "Climax"
    act1_objectives := []
    act2_objectives := []
    act3_objectives := []
    reward_xp := 0
    reward_currency := 0
    reward_items := []
    has_reward_reputation := false
    has_failure_consequences := false
    time_limit := none
    can_fail := true
    can_abandon := true
    is_repeatable := false
    cooldown_hours := 0
    required_missions_completed := []
    required_items := [] }

/-- A squadless level-5 player with a fresh instance row. -/
def mkWorld : World :=
  { pm := initialPM
    player_level := 5
    player_experience := 100
    player_currency := 0
    player_items := []
    squad := none
    prior_active := false
    prior_completed_at := []
    prereq_completed := fun _ => false
    mission_names := fun _ => none
    item_templates := fun _ => none }

/-- Fixture for C1: a public 500-xp mission at act 3 with one required
objective outstanding. -/
def c1Mission : Mission :=
  { mkMission with name := "Raid", reward_xp := 500,
                   act3_objectives := [{ key := "a3o1", required := true }] }

/-- Fixture for C1: the instance mid-act-3. -/
def c1World : World :=
  { mkWorld with pm := { initialPM with status := .in_progress, current_act := 3 } }

/-- Fixture for C3: a public mission granting 750 xp and 25 currency. -/
def c3Mission : Mission :=
  { mkMission with name := "Hostage Rescue", reward_xp := 750, reward_currency := 25,
                   act3_objectives := [{ key := "rescue", required := true }] }

/-- Fixture for C3: instance at act 3, player with 40 xp and 5 currency. -/
def c3World : World :=
  { mkWorld with player_experience := 40, player_currency := 5,
                 pm := { initialPM with status := .in_progress, current_act := 3 } }

/-- Fixture for C4: a repeatable combat event. -/
def c4Event : MissionEventDef :=
  { key := "ambush", name := "Ambush", event_type := "combat",
    description := "Enemies attack", is_repeatable := true }

/-- Fixture for C4: an active instance that has already fired the event. -/
def c4World : World :=
  { mkWorld with pm := { initialPM with status := .active, events_triggered := ["ambush"] } }

/-- Fixture for C10: an accepted instance still at the hook. -/
def c10WorldHook : World :=
  { mkWorld with pm := { initialPM with status := .active } }

/-- Fixture for C10: an instance that has started act 1. -/
def c10WorldAct1 : World :=
  { mkWorld with pm := { initialPM with status := .in_progress, current_act := 1 } }

/-- Fixture for C2: a fully completed instance. -/
def c2World : World :=
  { mkWorld with pm := { initialPM with status := .completed, current_act := 4,
                                        success_level := some .full } }

/-- Fixture for the C2 witness: a failed instance. -/
def c2FailedWorld : World :=
  { mkWorld with pm := { initialPM with status := .failed, current_act := 2,
                                        success_level := some .failure } }

/-- Fixture for C5: a mission with a time limit. -/
def c5Mission : Mission :=
  { mkMission with name := "Timed", time_limit := some 100 }

/-- Fixture for C5: a Completed instance whose limit stamp has passed. -/
def c5World : World :=
  { mkWorld with pm := { initialPM with status := .completed, current_act := 4,
                                        success_level := some .full,
                                        time_limit_expires := some 100 } }

/-- Fixture for the C5 witness: an Active instance with an expired stamp. -/
def c5ActiveWorld : World :=
  { mkWorld with pm := { initialPM with status := .active,
                                        time_limit_expires := some 100 } }

/-- Fixture for C7: a mission with one consumed-on-accept requirement. -/
def c7Mission : Mission :=
  { mkMission with name := "Supply Run",
                   required_items := [{ item_key := "ration", quantity := 1, consumed := true }] }

/-- Fixture for C7: an eligible squadded player owning the ration. -/
def c7World : World :=
  { mkWorld with player_items := ["ration"],
                 squad := some { squad_name := "Bravo Squad", members := [{ health := 100 }] } }

/-- Fixture for C7: the same eligible player without a squad. -/
def c7SquadlessWorld : World :=
  { mkWorld with player_items := ["ration"] }

/-- Fixture for C6: a mission demanding a two-member squad. -/
def c6Mission : Mission :=
  { mkMission with required_squad_size := 2 }

/-- Fixture for the C6 witness: a requiredLevel=5 mission. -/
def c6LevelMission : Mission :=
  { mkMission with required_level := 5 }

/-- Fixture for the C6 witness: a level-3 actor. -/
def c6LowWorld : World :=
  { mkWorld with player_level := 3 }

/-- Fixture for the C6 witness: an actor with a healthy squad. -/
def c6SquadWorld : World :=
  { mkWorld with squad := some { squad_name := "Alpha Squad", members := [{ health := 80 }] } }

/-- Fixture for C8: a Completed instance whose final objective is
recorded. -/
def c8World : World :=
  { mkWorld with pm := { initialPM with status := .completed, current_act := 4,
                                        objectives_completed := ["o1"] } }

/-- Fixture for the C8 witness: an InProgress instance with a recorded
objective. -/
def c8wWorld : World :=
  { mkWorld with pm := { initialPM with status := .in_progress, current_act := 1,
                                        objectives_completed := ["scout"] } }

/-! Helper lemmas. -/

/-- Accept never persists any change: every branch — the
not-available failure, the eligibility error or failure result, and
the snapshot exception — returns the world untouched, because the
single save at line 141 is unreachable. -/
theorem accept_unchanged (m : Mission) (now : Nat) (w : World) :
    (accept m now w).1 = w := by
  unfold accept
  by_cases hst : w.pm.status ≠ Status.available
  · rw [if_pos hst]
  · rw [if_neg hst]
    rcases hc : can_player_start m w now with e | p
    · rfl
    · rcases p with ⟨b, msg⟩
      cases b
      · rfl
      · rcases hsq : w.squad with _ | sq <;> rfl

/-! Claim theorems. -/

/-- Claim C1: completing the last required act-3 objective of an
Active/InProgress instance is claimed to transition it to Completed
with successLevel=Full, completedAt set and currentAct=4.  On the code
this path calls `self.player.gain_xp(...)` for a public mission with
reward_xp > 0; Player defines `gain_experience`, not `gain_xp`, so the
call raises AttributeError before any completion field is saved: the
persisted instance stays InProgress at act 3 with only the objective
recorded. -/
theorem claim_C1_act3_completion_crashes :
    (complete_objective c1Mission 40 c1World "a3o1").2 =
      PyRes.exn "AttributeError: Player has no attribute gain_xp" ∧
    (complete_objective c1Mission 40 c1World "a3o1").1.pm.status = Status.in_progress ∧
    (complete_objective c1Mission 40 c1World "a3o1").1.pm.current_act = 3 ∧
    (complete_objective c1Mission 40 c1World "a3o1").1.pm.success_level = none ∧
    (complete_objective c1Mission 40 c1World "a3o1").1.pm.completed_at = none ∧
    (complete_objective c1Mission 40 c1World "a3o1").1.pm.objectives_completed = ["a3o1"] := by
  decide

/-- Claim C3: reward settlement for a completed public mission is
claimed to grant xp/currency/items exactly once with rewardsSettled
flipping false→true.  On the code the settlement path's first statement
is `self.player.gain_xp(...)`, which raises AttributeError (Player
defines `gain_experience`), so a public mission with reward_xp > 0
grants nothing at all: xp and currency stay untouched and
rewards_claimed stays false. -/
theorem claim_C3_settlement_never_grants_xp :
    (complete_objective c3Mission 99 c3World "rescue").2 =
      PyRes.exn "AttributeError: Player has no attribute gain_xp" ∧
    (complete_objective c3Mission 99 c3World "rescue").1.player_experience = 40 ∧
    (complete_objective c3Mission 99 c3World "rescue").1.player_currency = 5 ∧
    (complete_objective c3Mission 99 c3World "rescue").1.pm.rewards_claimed = false ∧
    (complete_objective c3Mission 99 c3World "rescue").1.pm.xp_awarded = 0 ∧
    (complete_objective c3Mission 99 c3World "rescue").1.pm.status = Status.in_progress := by
  decide

/-- Claim C4: re-triggering an event whose definition has
isRepeatable=true is claimed to succeed and append the key again.  The
view's own bypass check passes for a repeatable event, but
PlayerMission.trigger_event then unconditionally rejects any key that
is already in events_triggered, so the second trigger fails and
nothing is appended. -/
theorem claim_C4_repeatable_event_cannot_refire :
    c4Event.is_repeatable = true ∧
    (missionEventTriggerView c4Event c4World).2 = (false, "Event already triggered") ∧
    (missionEventTriggerView c4Event c4World).1.pm.events_triggered = ["ambush"] := by
  decide

/-- Claim C10: for a mission with zero objectives the progress summary
is claimed to return progress_percent = 0 rather than failing, with
time_remaining null when no limit is set.  The division guard and the
null time_remaining are indeed correct (shown at the hook), but as
soon as current_act > 0 the act_name entry calls
`self.mission.get_act_title(...)`, a method that exists nowhere in the
repository, so the summary raises AttributeError instead of returning. -/
theorem claim_C10_summary_guarded_but_crashes_after_hook :
    get_total_objectives mkMission = 0 ∧
    get_progress_summary mkMission 0 c10WorldHook =
      Except.ok
        { mission_name := "M"
          status_display := "Active"
          current_act := 0
          act_name := "Hook"
          objectives_completed := 0
          total_objectives := 0
          progress_percent := 0
          time_remaining := none
          success_level := none } ∧
    get_progress_summary mkMission 0 c10WorldAct1 =
      Except.error "AttributeError: Mission has no attribute get_act_title" := by
  exact ⟨rfl, rfl, rfl⟩

/-- Claim C2, counterexample: on a Completed (terminal) instance every
completeObjective/triggerEvent/makeChoice call is claimed to fail and
leave the collections unchanged.  In the code trigger_event and
make_choice have no status guard at all: both succeed on a Completed
instance and append to their collections. -/
theorem claim_C2_counterexample :
    c2World.pm.status = Status.completed ∧
    (trigger_event c2World "late_event").2 = PyRes.ok true "Event triggered" ∧
    (trigger_event c2World "late_event").1.pm.events_triggered = ["late_event"] ∧
    (make_choice 7 c2World "ev" "run" "fled").2 = PyRes.ok true "Choice recorded" ∧
    (make_choice 7 c2World "ev" "run" "fled").1.pm.choices_made =
      [{ event_key := "ev", choice := "run", outcome := "fled", timestamp := 7 }] := by
  decide

/-- Claim C5, counterexample: checkTimeLimit on a Completed instance is
claimed to return false and change nothing.  The code has no status
guard: for a can_fail mission with an expired stamp it returns true and
re-fails the already-completed instance, overwriting its status and
success level. -/
theorem claim_C5_counterexample :
    c5World.pm.status = Status.completed ∧
    (check_time_limit c5Mission 200 c5World).2 = true ∧
    (check_time_limit c5Mission 200 c5World).1.pm.status = Status.failed ∧
    (check_time_limit c5Mission 200 c5World).1.pm.success_level =
      some SuccessLevel.failure ∧
    (check_time_limit c5Mission 200 c5World).1.pm.completion_notes =
      "Time limit exceeded" := by
  decide

/-- Claim C7: accept is claimed to either fail before removing any
item (with the eligibility check, including every required item
quantity, re-validated first) or succeed and remove the full required
quantity of every consumed entry.  In the code the accept flow can
never perform the consumption it describes: for a squadded, fully
eligible player the snapshot dict raises AttributeError at
`self.player.squad.name` (Squad defines squad_name), and for a
squadless player `if player.squad:` inside can_player_start raises
RelatedObjectDoesNotExist before any item quantity is even validated.
The consumption loop (player_mission.py 129-139), the save, and the
success return are unreachable: accept never consumes any item and
never succeeds, as the final conjunct shows for every input. -/
theorem claim_C7_accept_never_consumes :
    (accept c7Mission 0 c7World).2 =
      PyRes.exn "AttributeError: Squad has no attribute name" ∧
    (accept c7Mission 0 c7World).1.player_items = ["ration"] ∧
    (accept c7Mission 0 c7World).1.pm = initialPM ∧
    (accept c7Mission 0 c7SquadlessWorld).2 =
      PyRes.exn "RelatedObjectDoesNotExist: Player has no squad" ∧
    (accept c7Mission 0 c7SquadlessWorld).1.player_items = ["ration"] ∧
    ∀ (m : Mission) (now : Nat) (w : World), (accept m now w).1 = w := by
  refine ⟨by decide, by decide, by decide, by decide, by decide, ?_⟩
  intro m now w
  exact accept_unchanged m now w

/-- Claim C8, counterexample: a second completeObjective(k) on an
already-recorded key is claimed to always report a reason containing
"already completed".  When the first call finished the mission (the
normal fate of the final act-3 objective), the instance is Completed
and the second call hits the status guard first: its reason is
"Mission is not active", which does not contain "already completed". -/
theorem claim_C8_counterexample :
    c8World.pm.objectives_completed.contains "o1" = true ∧
    (complete_objective mkMission 5 c8World "o1").2 =
      PyRes.ok false "Mission is not active" ∧
    strHasSub "already completed" "Mission is not active" = false := by
  decide

/-- Claim C2, amended: on a terminal instance completeObjective does
fail ("Mission is not active") and changes nothing, but triggerEvent
and makeChoice carry no status guard: triggerEvent succeeds and
appends whenever the key is not already recorded (failing only on a
duplicate key), and makeChoice always succeeds and appends. -/
theorem claim_C2_terminal_mutation (m : Mission) (now : Nat) (w : World)
    (k e c o : String) (h : Terminal w.pm.status) :
    complete_objective m now w k = (w, PyRes.ok false "Mission is not active") ∧
    (w.pm.events_triggered.contains k = false →
      (trigger_event w k).2 = PyRes.ok true "Event triggered" ∧
      (trigger_event w k).1.pm.events_triggered = w.pm.events_triggered ++ [k]) ∧
    (w.pm.events_triggered.contains k = true →
      trigger_event w k = (w, PyRes.ok false "Event already triggered")) ∧
    (make_choice now w e c o).2 = PyRes.ok true "Choice recorded" ∧
    (make_choice now w e c o).1.pm.choices_made =
      w.pm.choices_made ++ [{ event_key := e, choice := c, outcome := o, timestamp := now }] := by
  refine ⟨?_, ?_, ?_, rfl, rfl⟩
  · unfold complete_objective
    rcases h with h | h | h <;> simp [h]
  · intro hk
    have hk2 : k ∉ w.pm.events_triggered := by simpa using hk
    unfold trigger_event
    simp [hk2]
  · intro hk
    have hk2 : k ∈ w.pm.events_triggered := by simpa using hk
    unfold trigger_event
    simp [hk2]

/-- Witness for claim_C2_terminal_mutation at a concrete Failed
instance. -/
theorem claim_C2_terminal_mutation_witness :
    Terminal c2FailedWorld.pm.status ∧
    (trigger_event c2FailedWorld "aftermath").2 = PyRes.ok true "Event triggered" ∧
    (make_choice 9 c2FailedWorld "ev" "stay" "lost").2 = PyRes.ok true "Choice recorded" := by
  have h := claim_C2_terminal_mutation mkMission 9 c2FailedWorld "aftermath" "ev" "stay" "lost"
    (by decide)
  exact ⟨by decide, (h.2.1 (by decide)).1, h.2.2.2.1⟩

/-- Claim C5, amended: check_time_limit returns true exactly when the
expiry stamp is set and strictly in the past, with no status guard at
all; when it returns false nothing changes; when it fires it delegates
to fail_mission, which leaves everything unchanged for a
can_fail=false mission (though true is still returned) and otherwise
marks the instance Failed with successLevel=Failure and the note
"Time limit exceeded" — even when the instance was already terminal. -/
theorem claim_C5_check_time_limit (m : Mission) (now : Nat) (w : World) :
    ((check_time_limit m now w).2 = true ↔
      ∃ t, w.pm.time_limit_expires = some t ∧ t < now) ∧
    ((check_time_limit m now w).2 = false → (check_time_limit m now w).1 = w) ∧
    (m.can_fail = false → (check_time_limit m now w).1 = w) ∧
    ((check_time_limit m now w).2 = true → m.can_fail = true →
      (check_time_limit m now w).1.pm.status = Status.failed ∧
      (check_time_limit m now w).1.pm.success_level = some SuccessLevel.failure ∧
      (check_time_limit m now w).1.pm.completion_notes = "Time limit exceeded" ∧
      (check_time_limit m now w).1.pm.completed_at = some now) := by
  rcases hw : w.pm.time_limit_expires with _ | t
  · refine ⟨?_, ?_, ?_, ?_⟩ <;> simp [check_time_limit, hw]
  · by_cases hn : now > t
    · refine ⟨?_, ?_, ?_, ?_⟩
      · simp only [check_time_limit, hw, hn, if_true]
        constructor
        · intro _
          exact ⟨t, rfl, hn⟩
        · intro _
          trivial
      · simp [check_time_limit, hw, hn]
      · intro hcf
        simp [check_time_limit, fail_mission, hw, hn, hcf]
      · intro _ hcf
        simp [check_time_limit, fail_mission, hw, hn, hcf]
    · refine ⟨?_, ?_, ?_, ?_⟩
      · simp only [check_time_limit, hw, hn, if_false]
        constructor
        · intro hfalse
          exact absurd hfalse (by simp)
        · rintro ⟨t2, ht2, hlt⟩
          cases ht2
          omega
      · simp [check_time_limit, hw, hn]
      · intro _
        simp [check_time_limit, hw, hn]
      · intro hfire
        have hfalse : (check_time_limit m now w).2 = false := by
          simp [check_time_limit, hw, hn]
        rw [hfalse] at hfire
        exact absurd hfire (by simp)

/-- Witness for claim_C5_check_time_limit at a concrete expired Active
instance of a can_fail mission. -/
theorem claim_C5_check_time_limit_witness :
    (check_time_limit c5Mission 200 c5ActiveWorld).2 = true ∧
    (check_time_limit c5Mission 200 c5ActiveWorld).1.pm.status = Status.failed := by
  have h := claim_C5_check_time_limit c5Mission 200 c5ActiveWorld
  have h2 : (check_time_limit c5Mission 200 c5ActiveWorld).2 = true :=
    h.1.mpr ⟨100, rfl, by decide⟩
  exact ⟨h2, (h.2.2.2 h2 rfl).1⟩

/-- Claim C8, amended: a second completeObjective(k) on a key already
in objectivesCompleted never mutates the instance and never advances
an act; while the instance is still Active/InProgress its reason is
"Objective already completed" (which contains "already completed"),
but once the instance has left those statuses — e.g. because the first
call completed the mission — the status guard answers first and the
reason is "Mission is not active". -/
theorem claim_C8_idempotent_second_call (m : Mission) (now : Nat) (w : World)
    (k : String) (h : w.pm.objectives_completed.contains k = true) :
    ((w.pm.status = Status.active ∨ w.pm.status = Status.in_progress) →
      complete_objective m now w k = (w, PyRes.ok false "Objective already completed") ∧
      strHasSub "already completed" "Objective already completed" = true) ∧
    (¬ (w.pm.status = Status.active ∨ w.pm.status = Status.in_progress) →
      complete_objective m now w k = (w, PyRes.ok false "Mission is not active")) := by
  constructor
  · intro hs
    refine ⟨?_, by decide⟩
    have h2 : k ∈ w.pm.objectives_completed := by simpa using h
    unfold complete_objective
    simp [hs, h2]
  · intro hs
    unfold complete_objective
    simp [hs]

/-- Witness for claim_C8_idempotent_second_call at a concrete
InProgress instance. -/
theorem claim_C8_idempotent_second_call_witness :
    (complete_objective mkMission 6 c8wWorld "scout").2 =
      PyRes.ok false "Objective already completed" ∧
    (complete_objective mkMission 6 c8wWorld "scout").1.pm = c8wWorld.pm := by
  have h := claim_C8_idempotent_second_call mkMission 6 c8wWorld "scout" (by decide)
  have h2 := (h.1 (Or.inr rfl)).1
  exact ⟨by rw [h2], by rw [h2]⟩

/-- Unfolding lemma: a checklist starting with an explicit pair. -/
theorem firstFailure_cons (b : Bool) (r : String) (rest : List (Bool × String)) :
    firstFailure ((b, r) :: rest) =
      if b then firstFailure rest else (false, r) := by
  cases b <;> rfl

/-- Stage 7 (required items) agrees with its checklist entry. -/
theorem cps_items_eq (m : Mission) (w : World) :
    cps_items m w =
      firstFailure [((checkRequiredItemsLoop w.player_items m.required_items).isNone,
        (checkRequiredItemsLoop w.player_items m.required_items).getD "")] := by
  unfold cps_items
  rcases h : checkRequiredItemsLoop w.player_items m.required_items with _ | r
  · split <;> rfl
  · have hne : m.required_items ≠ [] := by
      intro he
      rw [he] at h
      simp [checkRequiredItemsLoop] at h
    rw [if_neg hne]
    rfl

/-- Stage 6 (prerequisites) prepends its checklist entry. -/
theorem cps_prereqs_eq (m : Mission) (w : World) (rest : List (Bool × String))
    (h : cps_items m w = firstFailure rest) :
    cps_prereqs m w =
      firstFailure (((checkPrereqsLoop w m.required_missions_completed).isNone,
        (checkPrereqsLoop w m.required_missions_completed).getD "") :: rest) := by
  unfold cps_prereqs
  rcases hp : checkPrereqsLoop w m.required_missions_completed with _ | r
  · split <;> exact h
  · have hne : m.required_missions_completed ≠ [] := by
      intro he
      rw [he] at hp
      simp [checkPrereqsLoop] at hp
    rw [if_neg hne]
    rfl

/-- Stages 4 and 5 (already completed, cooldown) prepend their
checklist entries. -/
theorem cps_cooldown_eq (m : Mission) (w : World) (now : Nat)
    (rest : List (Bool × String))
    (h : cps_prereqs m w = firstFailure rest) :
    cps_cooldown m w now =
      firstFailure ((m.is_repeatable || decide (w.prior_completed_at = []),
          "Mission already completed") ::
        ((cooldownFailReason m w now).isNone, (cooldownFailReason m w now).getD "") ::
        rest) := by
  unfold cps_cooldown
  by_cases hrep : m.is_repeatable
  · rw [if_neg (by simp [hrep])]
    have h4 : (m.is_repeatable || decide (w.prior_completed_at = [])) = true := by
      simp [hrep]
    rw [h4]
    rcases hl : lastCompletion w.prior_completed_at with _ | t
    · have h5 : cooldownFailReason m w now = none := by
        simp [cooldownFailReason, hrep, hl]
      rw [h5]
      exact h
    · dsimp only
      by_cases hcd : m.cooldown_hours > 0
      · rw [if_pos hcd]
        by_cases hnow : now < t + m.cooldown_hours * 3600
        · rw [if_pos hnow]
          have h5 : cooldownFailReason m w now =
              some ("On cooldown for " ++
                toString ((t + m.cooldown_hours * 3600 - now) / 3600) ++
                " more hours") := by
            simp [cooldownFailReason, hrep, hl, hcd, hnow]
          rw [h5]
          rfl
        · rw [if_neg hnow]
          have h5 : cooldownFailReason m w now = none := by
            simp [cooldownFailReason, hrep, hl, hcd, hnow]
          rw [h5]
          exact h
      · rw [if_neg hcd]
        have h5 : cooldownFailReason m w now = none := by
          simp [cooldownFailReason, hrep, hl, hcd]
        rw [h5]
        exact h
  · rw [if_pos (by simp [hrep])]
    have h5 : cooldownFailReason m w now = none := by
      simp [cooldownFailReason, hrep]
    rw [h5]
    by_cases hdone : w.prior_completed_at = []
    · have h4 : (m.is_repeatable || decide (w.prior_completed_at = [])) = true := by
        simp [hdone]
      rw [h4, if_neg (by simp [hdone])]
      exact h
    · have h4 : (m.is_repeatable || decide (w.prior_completed_at = [])) = false := by
        simp [hrep, hdone]
      rw [h4, if_pos hdone]
      rfl

/-- Stage 3 (already active) prepends its checklist entry. -/
theorem cps_active_eq (m : Mission) (w : World) (now : Nat)
    (rest : List (Bool × String))
    (h : cps_cooldown m w now = firstFailure rest) :
    cps_active m w now =
      firstFailure ((! w.prior_active, "Mission already in progress") :: rest) := by
  unfold cps_active
  rcases ha : w.prior_active
  · rw [if_neg (by simp [ha])]
    exact h
  · rw [if_pos (by simp [ha])]
    rfl

/-- Stage 2 (squad size) prepends its checklist entry for an actor
with a squad; the squadless branch of the source raises instead. -/
theorem cps_squad_eq (m : Mission) (w : World) (now : Nat) (sq : Squad)
    (hsq : w.squad = some sq) (rest : List (Bool × String))
    (h : cps_active m w now = firstFailure rest) :
    cps_squad m w now =
      Except.ok (firstFailure ((squadSizeOk m w,
        "Requires " ++ toString m.required_squad_size ++ " squad members") :: rest)) := by
  unfold cps_squad squadSizeOk
  rw [hsq]
  dsimp only
  by_cases halive : (sq.members.filter (fun mem => mem.health > 0)).length <
      m.required_squad_size
  · rw [if_pos halive,
        show decide (¬ ((sq.members.filter (fun mem => mem.health > 0)).length <
          m.required_squad_size)) = false by simp [halive]]
    rfl
  · rw [if_neg halive,
        show decide (¬ ((sq.members.filter (fun mem => mem.health > 0)).length <
          m.required_squad_size)) = true by simp [halive]]
    rw [h]
    rfl

/-- Claim C6, amended: the level check is evaluated first for every
actor, so e.g. a level-3 actor on a requiredLevel=5 mission gets
exactly "Requires level 5"; for an actor WITH a squad the seven checks
run in the spec's fixed order and short-circuit — can_player_start
returns exactly the checklist's first failing reason (firstFailure of
eligChecks) — but for a squadless actor past the level check,
`player.squad` (an unguarded reverse one-to-one accessor, mission.py
line 206) raises RelatedObjectDoesNotExist, so no reason string is
returned at all and the no-squad clause of check 2 is dead code. -/
theorem claim_C6_eligibility_order (m : Mission) (w : World) (now : Nat) :
    (w.player_level < m.required_level →
      can_player_start m w now =
        Except.ok (false, "Requires level " ++ toString m.required_level)) ∧
    ((∃ sq, w.squad = some sq) →
      can_player_start m w now = Except.ok (firstFailure (eligChecks m w now))) ∧
    (m.required_level ≤ w.player_level → w.squad = none →
      can_player_start m w now =
        Except.error "RelatedObjectDoesNotExist: Player has no squad") := by
  refine ⟨?_, ?_, ?_⟩
  · intro h1
    unfold can_player_start
    rw [if_pos h1]
  · rintro ⟨sq, hsq⟩
    unfold can_player_start eligChecks
    by_cases h1 : w.player_level < m.required_level
    · rw [if_pos h1,
          show decide (m.required_level ≤ w.player_level) = false by
            simp only [decide_eq_false_iff_not, not_le]
            exact h1]
      rfl
    · rw [if_neg h1,
          show decide (m.required_level ≤ w.player_level) = true by
            simp only [decide_eq_true_eq]
            omega]
      exact cps_squad_eq m w now sq hsq _
        (cps_active_eq m w now _
          (cps_cooldown_eq m w now _
            (cps_prereqs_eq m w _ (cps_items_eq m w))))
  · intro h1 hsq
    unfold can_player_start cps_squad
    rw [if_neg (by omega), hsq]

/-- Claim C6, counterexample: the claim says every actor gets the
reason of the first failing check — a squadless level-qualified actor
on a required_squad_size=2 mission should get "Requires 2 squad
members" from check 2.  Instead can_player_start raises
RelatedObjectDoesNotExist at the `if player.squad:` access and returns
no reason at all. -/
theorem claim_C6_counterexample :
    c6Mission.required_squad_size = 2 ∧
    mkWorld.squad = none ∧
    c6Mission.required_level ≤ mkWorld.player_level ∧
    can_player_start c6Mission mkWorld 0 =
      Except.error "RelatedObjectDoesNotExist: Player has no squad" := by
  exact ⟨rfl, rfl, by decide, rfl⟩

/-- Witness for claim_C6_eligibility_order: the level-3 actor on a
requiredLevel=5 mission gets exactly "Requires level 5", and a
squadded actor's result equals the ordered checklist's firstFailure. -/
theorem claim_C6_eligibility_order_witness :
    can_player_start c6LevelMission c6LowWorld 0 =
      Except.ok (false, "Requires level 5") ∧
    can_player_start mkMission c6SquadWorld 0 =
      Except.ok (firstFailure (eligChecks mkMission c6SquadWorld 0)) := by
  have h1 := claim_C6_eligibility_order c6LevelMission c6LowWorld 0
  have h2 := claim_C6_eligibility_order mkMission c6SquadWorld 0
  exact ⟨h1.1 (by decide), h2.2.1 ⟨_, rfl⟩⟩

/-- Facts of start_act when the requested act is stale. -/
theorem start_act_stale (now : Nat) (w : World) (n : Nat)
    (h : n ≤ w.pm.current_act) :
    start_act now w n = (w, PyRes.ok false "Act already started or completed") := by
  unfold start_act
  rw [if_pos (by omega)]

/-- Facts of start_act when it advances: the saved act is exactly the
requested one, the status is unchanged or becomes in_progress, and the
call ends in the get_act_title AttributeError. -/
theorem start_act_advance (now : Nat) (w : World) (n : Nat)
    (h : w.pm.current_act < n) :
    (start_act now w n).1.pm.current_act = n ∧
    ((start_act now w n).1.pm.status = w.pm.status ∨
      (start_act now w n).1.pm.status = Status.in_progress) ∧
    (start_act now w n).2 =
      PyRes.exn "AttributeError: Mission has no attribute get_act_title" := by
  unfold start_act
  rw [if_neg (by omega)]
  dsimp only
  split
  · exact ⟨rfl, Or.inr rfl, rfl⟩
  · exact ⟨rfl, Or.inl rfl, rfl⟩

/-- Facts of complete_mission: either the reward path raised and the
persisted world is untouched, or the instance is saved as Completed at
act 4. -/
theorem complete_mission_facts (m : Mission) (now : Nat) (w : World)
    (lvl : SuccessLevel) :
    (complete_mission m now w lvl).1 = w ∨
    ((complete_mission m now w lvl).1.pm.current_act = 4 ∧
      (complete_mission m now w lvl).1.pm.status = Status.completed) := by
  unfold complete_mission award_rewards
  dsimp only
  split
  · split
    · exact Or.inl rfl
    · split <;> exact Or.inr ⟨rfl, rfl⟩
  · exact Or.inr ⟨rfl, rfl⟩

/-- Act and status facts of the act-completion check: from a live
instance not past act 3, the persisted act never decreases, stays
within 4, and the structural invariant is maintained. -/
theorem check_act_facts (m : Mission) (now : Nat) (w : World)
    (hst : w.pm.status = Status.active ∨ w.pm.status = Status.in_progress)
    (hact : w.pm.current_act ≤ 3) :
    w.pm.current_act ≤ (check_act_completion m now w).1.pm.current_act ∧
    WorldInv (check_act_completion m now w).1 := by
  have hcase : w.pm.current_act = 0 ∨ w.pm.current_act = 1 ∨
      w.pm.current_act = 2 ∨ w.pm.current_act = 3 := by omega
  unfold check_act_completion
  rcases hcase with h | h | h | h
  · rw [h, if_pos rfl]
    obtain ⟨ha, hs, hr⟩ := start_act_advance now w 1 (by omega)
    rcases hsa : start_act now w 1 with ⟨w1, r⟩
    rw [hsa] at ha hs hr
    dsimp only at ha hs hr
    subst hr
    dsimp only
    refine ⟨by omega, ?_, ?_, by omega⟩
    · intro hx
      rcases hs with hs | hs
      · rw [hs] at hx
        rcases hst with h2 | h2 <;> rw [h2] at hx <;> cases hx
      · rw [hs] at hx
        cases hx
    · intro _
      omega
  · rw [h, if_neg (by omega)]
    dsimp only
    norm_num
    split
    · obtain ⟨ha, hs, hr⟩ := start_act_advance now w 2 (by omega)
      rcases hsa : start_act now w 2 with ⟨w1, r⟩
      rw [hsa] at ha hs hr
      dsimp only at ha hs hr
      subst hr
      dsimp only
      refine ⟨by omega, ?_, ?_, by omega⟩
      · intro hx
        rcases hs with hs | hs
        · rw [hs] at hx
          rcases hst with h2 | h2 <;> rw [h2] at hx <;> cases hx
        · rw [hs] at hx
          cases hx
      · intro _
        omega
    · dsimp only
      refine ⟨by omega, ?_, ?_, by omega⟩
      · intro hx
        rcases hst with h2 | h2 <;> rw [h2] at hx <;> cases hx
      · intro _
        omega
  · rw [h, if_neg (by omega)]
    dsimp only
    norm_num
    split
    · obtain ⟨ha, hs, hr⟩ := start_act_advance now w 3 (by omega)
      rcases hsa : start_act now w 3 with ⟨w1, r⟩
      rw [hsa] at ha hs hr
      dsimp only at ha hs hr
      subst hr
      dsimp only
      refine ⟨by omega, ?_, ?_, by omega⟩
      · intro hx
        rcases hs with hs | hs
        · rw [hs] at hx
          rcases hst with h2 | h2 <;> rw [h2] at hx <;> cases hx
        · rw [hs] at hx
          cases hx
      · intro _
        omega
    · dsimp only
      refine ⟨by omega, ?_, ?_, by omega⟩
      · intro hx
        rcases hst with h2 | h2 <;> rw [h2] at hx <;> cases hx
      · intro _
        omega
  · rw [h, if_neg (by omega)]
    dsimp only
    norm_num
    split
    · rcases complete_mission_facts m now w SuccessLevel.full with hc | ⟨hc1, hc2⟩
      · rw [hc]
        refine ⟨by omega, ?_, ?_, by omega⟩
        · intro hx
          rcases hst with h2 | h2 <;> rw [h2] at hx <;> cases hx
        · intro _
          exact hact
      · refine ⟨by omega, ?_, ?_, by omega⟩
        · intro hx
          rw [hc2] at hx
          cases hx
        · intro hx
          rcases hx with hx | hx <;> rw [hc2] at hx <;> cases hx
    · dsimp only
      refine ⟨by omega, ?_, ?_, by omega⟩
      · intro hx
        rcases hst with h2 | h2 <;> rw [h2] at hx <;> cases hx
      · intro _
        omega

/-- Every public operation preserves the structural invariant and
never decreases the persisted current_act. -/
theorem step_facts (m : Mission) (w : World) (s : Nat × Op) (h : WorldInv w) :
    w.pm.current_act ≤ (step m w s).pm.current_act ∧ WorldInv (step m w s) := by
  obtain ⟨h1, h2, h3⟩ := h
  rcases s with ⟨now, op⟩
  cases op with
  | acceptM =>
      unfold step
      dsimp only
      rw [accept_unchanged]
      exact ⟨le_refl _, h1, h2, h3⟩
  | completeObjectiveM k =>
      unfold step complete_objective
      dsimp only
      by_cases hst2 : w.pm.status = Status.active ∨ w.pm.status = Status.in_progress
      · rw [if_neg (not_not_intro hst2)]
        by_cases hk : w.pm.objectives_completed.contains k
        · rw [if_pos hk]
          exact ⟨le_refl _, h1, h2, h3⟩
        · rw [if_neg hk]
          have hf := check_act_facts m now
            { w with pm :=
              { w.pm with objectives_completed := w.pm.objectives_completed ++ [k] } }
            hst2 (h2 hst2)
          rcases hca : check_act_completion m now
            { w with pm :=
              { w.pm with objectives_completed := w.pm.objectives_completed ++ [k] } }
            with ⟨w1, r⟩
          rw [hca] at hf
          dsimp only at hf
          cases r <;> exact hf
      · rw [if_pos hst2]
        exact ⟨le_refl _, h1, h2, h3⟩
  | triggerEventM k =>
      unfold step trigger_event
      dsimp only
      split <;> exact ⟨le_refl _, h1, h2, h3⟩
  | makeChoiceM e c o =>
      unfold step make_choice
      dsimp only
      exact ⟨le_refl _, h1, h2, h3⟩
  | abandonM =>
      unfold step abandon_mission
      dsimp only
      split
      · exact ⟨le_refl _, h1, h2, h3⟩
      · refine ⟨le_refl _, ?_, ?_, h3⟩
        · intro hx
          cases hx
        · intro hx
          rcases hx with hx | hx <;> cases hx
  | failM r =>
      unfold step fail_mission
      dsimp only
      split
      · exact ⟨le_refl _, h1, h2, h3⟩
      · refine ⟨le_refl _, ?_, ?_, h3⟩
        · intro hx
          cases hx
        · intro hx
          rcases hx with hx | hx <;> cases hx
  | checkTimeLimitM =>
      unfold step check_time_limit
      dsimp only
      rcases hte : w.pm.time_limit_expires with _ | t
      · exact ⟨le_refl _, h1, h2, h3⟩
      · dsimp only
        by_cases hn : now > t
        · rw [if_pos hn]
          unfold fail_mission
          split
          · exact ⟨le_refl _, h1, h2, h3⟩
          · refine ⟨le_refl _, ?_, ?_, h3⟩
            · intro hx
              cases hx
            · intro hx
              rcases hx with hx | hx <;> cases hx
        · rw [if_neg hn]
          exact ⟨le_refl _, h1, h2, h3⟩

/-- Running any sequence of public operations preserves the invariant
and never decreases the persisted current_act. -/
theorem run_facts (m : Mission) (w : World) (steps : List (Nat × Op))
    (h : WorldInv w) :
    w.pm.current_act ≤ (run m w steps).pm.current_act ∧ WorldInv (run m w steps) := by
  induction steps generalizing w with
  | nil => exact ⟨le_refl _, h⟩
  | cons s rest ih =>
      have hs := step_facts m w s h
      have hr := ih (step m w s) hs.2
      exact ⟨le_trans hs.1 hr.1, hr.2⟩

/-- Claim C9: along every sequence of public operations (accept,
completeObjective, triggerEvent, makeChoice, abandonMission,
failMission, checkTimeLimit) from a structurally well-formed instance,
the persisted current_act never decreases from one operation to the
next and never exceeds 4. -/
theorem claim_C9_current_act_monotone (m : Mission) (w : World) (h : WorldInv w)
    (steps : List (Nat × Op)) (s : Nat × Op) :
    (run m w steps).pm.current_act ≤ (run m w (steps ++ [s])).pm.current_act ∧
    (run m w steps).pm.current_act ≤ 4 ∧
    (run m w (steps ++ [s])).pm.current_act ≤ 4 := by
  have hrun := run_facts m w steps h
  have hstep := step_facts m (run m w steps) s hrun.2
  have happ : run m w (steps ++ [s]) = step m (run m w steps) s := by
    unfold run
    rw [List.foldl_append]
    rfl
  rw [happ]
  exact ⟨hstep.1, hrun.2.2.2, hstep.2.2.2⟩

/-- Witness for claim_C9_current_act_monotone on a fresh instance
accepting and then completing a hook objective. -/
theorem claim_C9_current_act_monotone_witness :
    WorldInv mkWorld ∧
    (run mkMission mkWorld [(0, Op.acceptM)]).pm.current_act ≤
      (run mkMission mkWorld
        [(0, Op.acceptM), (5, Op.completeObjectiveM "x")]).pm.current_act ∧
    (run mkMission mkWorld
      [(0, Op.acceptM), (5, Op.completeObjectiveM "x")]).pm.current_act ≤ 4 := by
  have h := claim_C9_current_act_monotone mkMission mkWorld (by decide)
    [(0, Op.acceptM)] (5, Op.completeObjectiveM "x")
  exact ⟨by decide, h.1, h.2.2⟩

end FRMud

